import Mathlib

/-!
Shallow embedding of the clearphone configuration engine
(`clearphone/api/events.py`, `clearphone/core/profile.py`,
`clearphone/core/apps_catalog.py`, `clearphone/core/remover.py`,
`clearphone/core/installer.py`, `clearphone/core/workflow.py`).

The device transport (`adb.py`) and the downloader (`downloader.py`) are
external collaborators; they are modelled as oracle environments that supply
the `ADBResult` values and download outcomes the core code consumes.  Python
dicts are modelled as insertion-ordered association lists, Python sets of
strings as lists with membership, and Python exceptions as explicit
`Except` / error values threaded through the state-passing translation of
the generator-based control flow.
-/

namespace Clearphone

/-- Case-insensitive-ready substring test: Python `needle in haystack`. -/
def strContains (haystack needle : String) : Bool :=
  haystack.toList.tails.any (fun t => needle.toList.isPrefixOf t)

/-- First-match lookup in an insertion-ordered association list
(Python `d[k]` / `k in d` on a dict). -/
def alookup {α : Type} (l : List (String × α)) (k : String) : Option α :=
  (l.find? (fun p => p.1 == k)).map Prod.snd

/-- `EventType` enumeration from `api/events.py`. -/
inductive EventType
  | WORKFLOW_STARTED | WORKFLOW_COMPLETED | WORKFLOW_FAILED
  | PHASE_STARTED | PHASE_COMPLETED
  | DEVICE_CONNECTED | DEVICE_VALIDATED
  | PACKAGE_REMOVAL_STARTED | PACKAGE_REMOVED | PACKAGE_REMOVAL_SKIPPED
  | PACKAGE_REMOVAL_FAILED | PACKAGE_NOT_INSTALLED
  | DOWNLOAD_STARTED | DOWNLOAD_PROGRESS | DOWNLOAD_COMPLETED | DOWNLOAD_FAILED
  | INSTALL_STARTED | INSTALL_COMPLETED | INSTALL_FAILED
  | DEFAULT_APP_SET | DEFAULT_APP_FAILED
  | CAMERA_CHOICE_REQUIRED | CAMERA_CHOICE_MADE
  | EXTRAS_SELECTION_REQUIRED | EXTRAS_SELECTION_MADE
  | WARNING
deriving DecidableEq, Repr

/-- The event dataclass hierarchy from `api/events.py`, one constructor per
frozen dataclass, carrying that dataclass's payload fields.  The float
`progress_percent` field of `DownloadEvent` is omitted (floating point);
download events are produced only by the external downloader oracle. -/
inductive Event
  | workflow (type : EventType) (message profile_name device_name : String)
  | phase (type : EventType) (message phase_name : String)
      (phase_number total_phases : Nat)
  | device (type : EventType)
      (message serial model android_version manufacturer : String)
  | package (type : EventType) (message package_id package_name reason : String)
  | download (type : EventType) (message app_id app_name source url : String)
      (progress_bytes total_bytes : Nat)
  | install (type : EventType) (message app_id app_name package_id apk_path : String)
  | defaultApp (type : EventType) (message app_id app_name role : String)
  | cameraChoice (type : EventType)
      (message stock_camera_name stock_camera_package replacement_name user_choice : String)
  | extrasSelection (type : EventType) (message : String)
      (available_free available_non_free selected_free selected_non_free : List String)
deriving DecidableEq, Repr

/-- The `type` discriminator of an event. -/
def Event.etype : Event → EventType
  | .workflow t _ _ _ => t
  | .phase t _ _ _ _ => t
  | .device t _ _ _ _ _ => t
  | .package t _ _ _ _ => t
  | .download t _ _ _ _ _ _ _ => t
  | .install t _ _ _ _ _ => t
  | .defaultApp t _ _ _ _ => t
  | .cameraChoice t _ _ _ _ _ => t
  | .extrasSelection t _ _ _ _ _ => t

/-- Event skeleton: discriminator plus the identifying payload field
(package id / app id / role), without the human-readable message. -/
def Event.skeleton : Event → EventType × String
  | .workflow t _ _ _ => (t, "")
  | .phase t _ n _ _ => (t, n)
  | .device t _ s _ _ _ => (t, s)
  | .package t _ pid _ _ => (t, pid)
  | .download t _ aid _ _ _ _ _ => (t, aid)
  | .install t _ aid _ _ _ => (t, aid)
  | .defaultApp t _ aid _ _ => (t, aid)
  | .cameraChoice t _ _ pid _ _ => (t, pid)
  | .extrasSelection t _ _ _ _ _ => (t, "")

/-- `ADBResult` from `core/adb.py`. -/
structure ADBResult where
  returncode : Int
  stdout : String
  stderr : String
deriving DecidableEq, Repr

/-- `ADBResult.success`: returncode == 0. -/
def ADBResult.success (r : ADBResult) : Bool := r.returncode == 0

/-- Python `self.stderr or self.stdout` (empty string is falsy). -/
def ADBResult.error (r : ADBResult) : String :=
  if r.stderr ≠ "" then r.stderr else r.stdout

/-- A mutating call issued to the device transport.  The embedding records
these so that frame properties (dry-run never mutates) are statable. -/
inductive TransportCall
  | uninstall (package_id : String)
  | installApk (apk_path : String)
  | setRole (role package_id : String)
deriving DecidableEq, Repr

/-- Oracle for the device transport: the installed-package snapshot and the
`ADBResult` each mutating call would return.  `role_result` is keyed by the
role id (which selects the `set_default_*` method) and the package id. -/
structure ADBEnv where
  installed_packages : List String
  uninstall_result : String → ADBResult
  install_result : String → ADBResult
  role_result : String → String → ADBResult

/-! ## Profile model (`core/profile.py`) -/

/-- `PackageToRemove` dataclass.  `action` is a plain string: `from_dict`
does not validate the `Literal["remove", "disable"]` annotation. -/
structure PackageToRemove where
  id : String
  name : String
  source : String
  function : String
  category : String
  action : String
  conditional : Option String := none
  removal_rationale : String := ""
deriving DecidableEq, Repr

/-- `DeviceInfo` dataclass from `core/profile.py`. -/
structure DeviceInfo where
  model_pattern : String
  name : String
  android_version : String
  maintainer : String
deriving DecidableEq, Repr

/-- `AppsConfig` dataclass. -/
structure AppsConfig where
  extras_free : List String := []
  extras_non_free : List String := []
deriving DecidableEq, Repr

/-- `DeviceProfile` dataclass (the `path` field, a filesystem path used only
for diagnostics, is kept as a string). -/
structure DeviceProfile where
  path : String
  device : DeviceInfo
  apps : AppsConfig
  packages : List PackageToRemove
deriving DecidableEq, Repr

/-- `DeviceProfile.get_packages_to_remove`: skip non-`remove` actions,
always keep non-conditional packages, keep a conditional package only when
its tag maps to true in `conditional_choices` (default false). -/
def DeviceProfile.get_packages_to_remove (p : DeviceProfile)
    (conditional_choices : List (String × Bool)) : List PackageToRemove :=
  p.packages.filter (fun pkg =>
    pkg.action == "remove" &&
      match pkg.conditional with
      | none => true
      | some c => (alookup conditional_choices c).getD false)

/-- `DeviceProfile.get_conditional_packages`. -/
def DeviceProfile.get_conditional_packages (p : DeviceProfile) : List PackageToRemove :=
  p.packages.filter (fun pkg => pkg.conditional.isSome)

/-- `DeviceProfile.has_camera_choice`. -/
def DeviceProfile.has_camera_choice (p : DeviceProfile) : Bool :=
  p.packages.any (fun pkg => pkg.conditional == some "camera")

/-- `DeviceProfile.get_stock_camera_package`: first package with
`conditional == "camera"`. -/
def DeviceProfile.get_stock_camera_package (p : DeviceProfile) :
    Option PackageToRemove :=
  p.packages.find? (fun pkg => pkg.conditional == some "camera")

/-! ## Apps catalog (`core/apps_catalog.py`) -/

/-- `AppDefinition` dataclass (`source` as a plain string, as `from_dict`
does not validate the Literal annotation). -/
structure AppDefinition where
  id : String
  package_id : String
  name : String
  source : String
  fdroid_package_name : Option String := none
  download_url : Option String := none
  description : Option String := none
  installation_priority : Int := 50
  notes : Option String := none
deriving DecidableEq, Repr

/-- `AppsCatalog` dataclass: three insertion-ordered id → definition dicts. -/
structure AppsCatalog where
  core_apps : List (String × AppDefinition) := []
  extras_free : List (String × AppDefinition) := []
  extras_non_free : List (String × AppDefinition) := []
deriving DecidableEq, Repr

/-- `AppNotFoundError(app_id, catalog_type)` payload. -/
structure AppNotFoundErr where
  app_id : String
  catalog_type : String
deriving DecidableEq, Repr

/-- `AppsCatalog.get_app`: core, then free, then non-free; first match wins. -/
def AppsCatalog.get_app (c : AppsCatalog) (app_id : String) :
    Except AppNotFoundErr AppDefinition :=
  match alookup c.core_apps app_id with
  | some a => .ok a
  | none =>
    match alookup c.extras_free app_id with
    | some a => .ok a
    | none =>
      match alookup c.extras_non_free app_id with
      | some a => .ok a
      | none => .error ⟨app_id, "catalog"⟩

/-- `AppsCatalog.get_core_apps_sorted`: Python's stable `sorted` by
`installation_priority` (mergeSort is stable). -/
def AppsCatalog.get_core_apps_sorted (c : AppsCatalog) : List AppDefinition :=
  (c.core_apps.map Prod.snd).mergeSort
    (fun a b => a.installation_priority ≤ b.installation_priority)

/-- One of the two id-resolution loops of `AppsCatalog.resolve_extras`:
resolve each id strictly against the given partition, failing on the first
id the partition does not declare. -/
def resolveIn (part : List (String × AppDefinition)) (label : String) :
    List String → Except AppNotFoundErr (List AppDefinition)
  | [] => .ok []
  | app_id :: rest =>
    match alookup part app_id with
    | none => .error ⟨app_id, label⟩
    | some a =>
      match resolveIn part label rest with
      | .error e => .error e
      | .ok tl => .ok (a :: tl)

/-- `AppsCatalog.resolve_extras`: all free ids strictly against the free
partition first, then all non-free ids strictly against the non-free
partition; the first unresolved id raises `AppNotFoundError` naming the id
and the partition. -/
def AppsCatalog.resolve_extras (c : AppsCatalog)
    (free_ids non_free_ids : List String) :
    Except AppNotFoundErr (List AppDefinition) :=
  match resolveIn c.extras_free "extras_free" free_ids with
  | .error e => .error e
  | .ok freeApps =>
    match resolveIn c.extras_non_free "extras_non_free" non_free_ids with
    | .error e => .error e
    | .ok nonFreeApps => .ok (freeApps ++ nonFreeApps)

/-- `AppsCatalog.get_all_extras_free`. -/
def AppsCatalog.get_all_extras_free (c : AppsCatalog) : List AppDefinition :=
  c.extras_free.map Prod.snd

/-- `AppsCatalog.get_all_extras_non_free`. -/
def AppsCatalog.get_all_extras_non_free (c : AppsCatalog) : List AppDefinition :=
  c.extras_non_free.map Prod.snd

/-- `validate_profile_apps` from `core/profile.py`: one error line per
profile extra id missing from its catalog partition, free ids first. -/
def validate_profile_apps (profile : DeviceProfile) (catalog : AppsCatalog) :
    List String :=
  (profile.apps.extras_free.filter
      (fun app_id => (alookup catalog.extras_free app_id).isNone)).map
    (fun app_id => "App \x27" ++ app_id ++ "\x27 not found in extras/free.toml") ++
  (profile.apps.extras_non_free.filter
      (fun app_id => (alookup catalog.extras_non_free app_id).isNone)).map
    (fun app_id => "App \x27" ++ app_id ++ "\x27 not found in extras/non-free.toml")

/-! ## Package remover (`core/remover.py`) -/

/-- `KNOX_PROTECTED_PACKAGES` (a Python set; only membership is used). -/
def KNOX_PROTECTED_PACKAGES : List String :=
  ["com.samsung.android.knox.analytics.uploader",
   "com.samsung.android.knox.attestation",
   "com.samsung.android.knox.containeragent",
   "com.samsung.android.knox.containercore",
   "com.samsung.android.knox.kpecore",
   "com.samsung.android.knox.pushmanager",
   "com.samsung.knox.securefolder",
   "com.sec.enterprise.knox.attestation",
   "com.sec.enterprise.knox.cloudmdm.smdms",
   "com.sec.knox.switcher",
   "com.samsung.android.providers.context",
   "com.samsung.android.service.livedrawing"]

/-- `PackageRemover._categorize_failure`. -/
def categorize_failure (error_msg : String) : String :=
  let error_lower := error_msg.toLower
  if strContains error_lower "not installed" then "Package not installed"
  else if strContains error_lower "device policy manager" ||
      strContains error_lower "admin" then "Package is a device administrator"
  else if strContains error_lower "permission" then "Permission denied"
  else if strContains error_lower "failure" then "Uninstall failed: " ++ error_msg
  else if error_msg ≠ "" then error_msg else "Unknown error"

/-- Output of a remover run: yielded events, the three counters, and the
mutating transport calls that were issued. -/
structure RemoverOutput where
  events : List Event
  removed : Nat
  skipped : Nat
  failed : Nat
  calls : List TransportCall
deriving DecidableEq, Repr

/-- Componentwise accumulation of remover outputs. -/
def RemoverOutput.append (a b : RemoverOutput) : RemoverOutput :=
  ⟨a.events ++ b.events, a.removed + b.removed, a.skipped + b.skipped,
   a.failed + b.failed, a.calls ++ b.calls⟩

/-- One iteration of the `remove_packages` loop body for a single package:
not-installed check, Knox check, then dry-run or real removal. -/
def remove_one (env : ADBEnv) (dry_run : Bool) (pkg : PackageToRemove) :
    RemoverOutput :=
  if !(env.installed_packages.contains pkg.id) then
    ⟨[.package .PACKAGE_NOT_INSTALLED ("Not installed: " ++ pkg.name)
        pkg.id pkg.name "Package not found on device"], 0, 1, 0, []⟩
  else if KNOX_PROTECTED_PACKAGES.contains pkg.id then
    ⟨[.package .PACKAGE_REMOVAL_SKIPPED ("Knox protected: " ++ pkg.name)
        pkg.id pkg.name "Package is protected by Samsung Knox"], 0, 1, 0, []⟩
  else
    let started : Event := .package .PACKAGE_REMOVAL_STARTED
      ("Removing: " ++ pkg.name) pkg.id pkg.name ""
    if dry_run then
      ⟨[started, .package .PACKAGE_REMOVED
          ("Would remove: " ++ pkg.name ++ " (dry run)") pkg.id pkg.name ""],
       1, 0, 0, []⟩
    else
      let result := env.uninstall_result pkg.id
      if result.success || strContains result.stdout.toLower "success" then
        ⟨[started, .package .PACKAGE_REMOVED ("Removed: " ++ pkg.name)
            pkg.id pkg.name ""], 1, 0, 0, [.uninstall pkg.id]⟩
      else
        let reason := categorize_failure result.error
        ⟨[started, .package .PACKAGE_REMOVAL_FAILED
            ("Failed to remove: " ++ pkg.name) pkg.id pkg.name reason],
         0, 0, 1, [.uninstall pkg.id]⟩

/-- `PackageRemover.remove_packages`: processes the whole list, accumulating
events, the (removed, skipped, failed) counters, and the issued calls. -/
def remove_packages (env : ADBEnv) (dry_run : Bool) :
    List PackageToRemove → RemoverOutput
  | [] => ⟨[], 0, 0, 0, []⟩
  | pkg :: rest =>
    (remove_one env dry_run pkg).append (remove_packages env dry_run rest)

/-! ## Installer (`core/installer.py`) -/

/-- Output of an `install_apps` run. -/
structure InstallerOutput where
  events : List Event
  installed : Nat
  failed : Nat
  calls : List TransportCall
deriving DecidableEq, Repr

/-- Componentwise accumulation of installer outputs. -/
def InstallerOutput.append (a b : InstallerOutput) : InstallerOutput :=
  ⟨a.events ++ b.events, a.installed + b.installed, a.failed + b.failed,
   a.calls ++ b.calls⟩

/-- One iteration of the `install_apps` loop body for one (definition,
APK path) entry. -/
def install_one (env : ADBEnv) (dry_run : Bool)
    (entry : AppDefinition × String) : InstallerOutput :=
  let app := entry.1
  let apk_path := entry.2
  let started : Event := .install .INSTALL_STARTED ("Installing: " ++ app.name)
    app.id app.name app.package_id apk_path
  if dry_run then
    ⟨[started, .install .INSTALL_COMPLETED
        ("Would install: " ++ app.name ++ " (dry run)")
        app.id app.name app.package_id apk_path], 1, 0, []⟩
  else
    let result := env.install_result apk_path
    if result.success || strContains result.stdout.toLower "success" then
      ⟨[started, .install .INSTALL_COMPLETED ("Installed: " ++ app.name)
          app.id app.name app.package_id apk_path], 1, 0,
       [.installApk apk_path]⟩
    else
      ⟨[started, .install .INSTALL_FAILED
          ("Failed to install " ++ app.name ++ ": " ++ result.error)
          app.id app.name app.package_id apk_path], 0, 1,
       [.installApk apk_path]⟩

/-- `AppInstaller.install_apps`. -/
def install_apps (env : ADBEnv) (dry_run : Bool) :
    List (AppDefinition × String) → InstallerOutput
  | [] => ⟨[], 0, 0, []⟩
  | entry :: rest =>
    (install_one env dry_run entry).append (install_apps env dry_run rest)

/-- The `role_methods` table of `AppInstaller.set_default_apps`: role id →
ADB role name (the bound method is selected by the role id and modelled by
keying `ADBEnv.role_result` on it). -/
def role_methods : List (String × String) :=
  [("launcher", "HOME"), ("dialer", "DIALER"), ("messaging", "SMS"),
   ("keyboard", "KEYBOARD"), ("gallery", "GALLERY")]

/-- Output of a `set_default_apps` run: the function returns no aggregate
value, only its event stream (and, for the embedding, the issued calls). -/
structure DefaultAppsOutput where
  events : List Event
  calls : List TransportCall
deriving DecidableEq, Repr

/-- Componentwise accumulation of `set_default_apps` outputs. -/
def DefaultAppsOutput.append (a b : DefaultAppsOutput) : DefaultAppsOutput :=
  ⟨a.events ++ b.events, a.calls ++ b.calls⟩

/-- One iteration of the `set_default_apps` loop body for one
`(role_id, app)` dict entry: entries outside the role table are skipped. -/
def set_default_one (env : ADBEnv) (dry_run : Bool)
    (entry : String × AppDefinition) : DefaultAppsOutput :=
  let role_id := entry.1
  let app := entry.2
  match alookup role_methods role_id with
  | none => ⟨[], []⟩
  | some role_name =>
    if dry_run then
      ⟨[.defaultApp .DEFAULT_APP_SET
          ("Would set " ++ app.name ++ " as default " ++ role_name ++ " (dry run)")
          app.id app.name role_name], []⟩
    else
      let result := env.role_result role_id app.package_id
      if result.success then
        ⟨[.defaultApp .DEFAULT_APP_SET
            ("Set " ++ app.name ++ " as default " ++ role_name)
            app.id app.name role_name], [.setRole role_name app.package_id]⟩
      else
        ⟨[.defaultApp .DEFAULT_APP_FAILED
            ("Failed to set " ++ app.name ++ " as default " ++ role_name ++
              ": " ++ result.stderr)
            app.id app.name role_name], [.setRole role_name app.package_id]⟩

/-- `AppInstaller.set_default_apps`: iterates the input dict in its
insertion order. -/
def set_default_apps (env : ADBEnv) (dry_run : Bool) :
    List (String × AppDefinition) → DefaultAppsOutput
  | [] => ⟨[], []⟩
  | entry :: rest =>
    (set_default_one env dry_run entry).append (set_default_apps env dry_run rest)

/-! ## Workflow orchestrator (`core/workflow.py`)

The generator `ConfigurationWorkflow.execute` is translated to explicit
state passing: each phase maps the orchestrator state to the events it
yields, the updated state, and an optional raised exception.  Mutations
applied before a raise are kept, exactly as on the Python instance. -/

/-- `WorkflowConfig` dataclass (paths as strings; `download_dir` is consumed
only by the external downloader oracle and is omitted). -/
structure WorkflowConfig where
  profile_path : String
  project_root : String
  dry_run : Bool := false
  non_interactive : Bool := false
deriving DecidableEq, Repr

/-- `UserChoices` dataclass. -/
structure UserChoices where
  camera_choice : String := ""
  selected_extras_free : List String := []
  selected_extras_non_free : List String := []
deriving DecidableEq, Repr

/-- `WorkflowResult` dataclass. -/
structure WorkflowResult where
  packages_removed : Nat := 0
  packages_skipped : Nat := 0
  packages_failed : Nat := 0
  apps_installed : Nat := 0
  apps_failed : Nat := 0
  success : Bool := true
  error_message : String := ""
deriving DecidableEq, Repr

/-- A Python exception as observed by `execute`'s two handlers: either a
`CriticalConfigurationError` or any other `Exception` (the catch-all),
carrying `str(e)`. -/
inductive PyErr
  | critical (msg : String)
  | other (msg : String)
deriving DecidableEq, Repr

/-- `str(e)` of the modelled exception. -/
def PyErr.msg : PyErr → String
  | .critical m => m
  | .other m => m

/-- `ClearphoneError._format_message`: message, plus suggestion when
non-empty. -/
def format_error (message suggestion : String) : String :=
  if suggestion ≠ "" then message ++ "\n\n" ++ suggestion else message

/-- `str` of `CriticalConfigurationError(message)` with the default
suggestion. -/
def criticalStr (message : String) : String :=
  format_error message
    "Configuration has been aborted. Your device may be in a partial state."

/-- `str` of `AppNotFoundError(app_id, catalog_type)`. -/
def appNotFoundStr (e : AppNotFoundErr) : String :=
  format_error ("App \x27" ++ e.app_id ++ "\x27 not found in " ++ e.catalog_type)
    ("Check that \x27" ++ e.app_id ++ "\x27 is defined in the apps catalog files.")

/-- `DeviceInfo` from `core/adb.py` (the transport's connected-device
identity). -/
structure AdbDeviceInfo where
  serial : String
  model : String
  android_version : String
  manufacturer : String
deriving DecidableEq, Repr

/-- `str` of `DeviceMismatchError(pattern, name, model)`. -/
def deviceMismatchStr (expected_pattern expected_name actual_model : String) :
    String :=
  format_error
    ("Wrong device model\n\nExpected: " ++ expected_name ++ " (" ++
      expected_pattern ++ ")\nFound: " ++ actual_model)
    "Connect the correct device or use a different profile."

/-- Oracle for the workflow's external collaborators: the outcome of
`load_profile`, `load_apps_catalog`, `ADBDevice.connect`, the glob match of
`validate_device_model` against the connected device, the downloader's
per-app event stream and optional result path, and the device transport. -/
structure WorkflowEnv where
  load_profile : Except PyErr DeviceProfile
  load_catalog : Except PyErr AppsCatalog
  connect : Except PyErr AdbDeviceInfo
  model_matches : String → Bool
  download : AppDefinition → List Event × Option String
  adb : ADBEnv

/-- The orchestrator's instance state: `self.choices`, `self.result`, and
the lazily initialized `self._profile`, `self._catalog`, `self._adb`
(the latter represented by its cached `device_info`). -/
structure WfState where
  choices : UserChoices := {}
  result : WorkflowResult := {}
  profile : Option DeviceProfile := none
  catalog : Option AppsCatalog := none
  device : Option AdbDeviceInfo := none
deriving DecidableEq, Repr

/-- The `self.profile` property: raises `CriticalConfigurationError` when
not loaded. -/
def WfState.getProfile (s : WfState) : Except PyErr DeviceProfile :=
  match s.profile with
  | some p => .ok p
  | none => .error (.critical (criticalStr "Profile not loaded"))

/-- The `self.catalog` property. -/
def WfState.getCatalog (s : WfState) : Except PyErr AppsCatalog :=
  match s.catalog with
  | some c => .ok c
  | none => .error (.critical (criticalStr "Catalog not loaded"))

/-- The `self.adb` property. -/
def WfState.getAdb (s : WfState) : Except PyErr AdbDeviceInfo :=
  match s.device with
  | some d => .ok d
  | none => .error (.critical (criticalStr "ADB not connected"))

/-- Result of one phase: yielded events, state at return or at the raise,
and the raised exception when any. -/
def PhaseResult := List Event × WfState × Option PyErr

/-- `ConfigurationWorkflow._emit_phase` (TOTAL_PHASES = 8). -/
def emit_phase (phase_num : Nat) (name : String) (started : Bool) : Event :=
  .phase (if started then .PHASE_STARTED else .PHASE_COMPLETED)
    ((if started then "Starting: " else "Completed: ") ++ name) name phase_num 8

/-- Phase 1: `_phase_load_profile`. -/
def _phase_load_profile (env : WorkflowEnv) (s : WfState) : PhaseResult :=
  let start := emit_phase 1 "Loading profile" true
  match env.load_profile with
  | .error e => ([start], s, some e)
  | .ok p =>
    ([start, emit_phase 1 "Loading profile" false],
     { s with profile := some p }, none)

/-- Phase 2: `_phase_load_catalog` — load, then validate the profile's
extras against the catalog, raising `CriticalConfigurationError` when any
id is missing.  The catalog is stored before validation runs. -/
def _phase_load_catalog (env : WorkflowEnv) (s : WfState) : PhaseResult :=
  let start := emit_phase 2 "Loading apps catalog" true
  match env.load_catalog with
  | .error e => ([start], s, some e)
  | .ok c =>
    let s' := { s with catalog := some c }
    match s'.getProfile with
    | .error e => ([start], s', some e)
    | .ok p =>
      let errors := validate_profile_apps p c
      if errors ≠ [] then
        ([start], s',
         some (.critical (criticalStr ("Profile validation failed:\n" ++
           String.intercalate "\n" (errors.map (fun e => "  - " ++ e))))))
      else
        ([start, emit_phase 2 "Loading apps catalog" false], s', none)

/-- Phase 3: `_phase_connect_device`. -/
def _phase_connect_device (env : WorkflowEnv) (s : WfState) : PhaseResult :=
  let start := emit_phase 3 "Connecting to device" true
  match env.connect with
  | .error e => ([start], s, some e)
  | .ok info =>
    ([start,
      .device .DEVICE_CONNECTED
        ("Connected to " ++ info.manufacturer ++ " " ++ info.model)
        info.serial info.model info.android_version info.manufacturer,
      emit_phase 3 "Connecting to device" false],
     { s with device := some info }, none)

/-- Phase 4: `_phase_validate_device` — glob-match the device model;
`DeviceMismatchError` (a `ValidationError`, caught by the catch-all handler)
on mismatch. -/
def _phase_validate_device (env : WorkflowEnv) (s : WfState) : PhaseResult :=
  let start := emit_phase 4 "Validating device" true
  match s.getAdb with
  | .error e => ([start], s, some e)
  | .ok info =>
    match s.getProfile with
    | .error e => ([start], s, some e)
    | .ok p =>
      if !(env.model_matches p.device.model_pattern) then
        ([start], s,
         some (.other (deviceMismatchStr p.device.model_pattern
           p.device.name info.model)))
      else
        ([start,
          .device .DEVICE_VALIDATED ("Device validated: " ++ p.device.name)
            info.serial info.model info.android_version info.manufacturer,
          emit_phase 4 "Validating device" false], s, none)

/-- The camera-choice resolution of phase 5: non-interactive mode defaults
to "stock" even when a callback is supplied; otherwise a supplied callback
decides; otherwise "stock". -/
def resolveCameraChoice (cfg : WorkflowConfig)
    (ccb : Option (String → String → String)) (stock : PackageToRemove) :
    String :=
  if cfg.non_interactive then "stock"
  else
    match ccb with
    | some f => f stock.name stock.id
    | none => "stock"

/-- Phase 5: `_phase_camera_choice`. -/
def _phase_camera_choice (cfg : WorkflowConfig)
    (ccb : Option (String → String → String)) (s : WfState) : PhaseResult :=
  let start := emit_phase 5 "Camera choice" true
  let stop := emit_phase 5 "Camera choice" false
  match s.getProfile with
  | .error e => ([start], s, some e)
  | .ok p =>
    if !p.has_camera_choice then ([start, stop], s, none)
    else
      match p.get_stock_camera_package with
      | none => ([start, stop], s, none)
      | some stock =>
        let choice := resolveCameraChoice cfg ccb stock
        ([start,
          .cameraChoice .CAMERA_CHOICE_REQUIRED "Camera choice required"
            stock.name stock.id "Fossify Camera" "",
          .cameraChoice .CAMERA_CHOICE_MADE ("Camera choice: " ++ choice)
            stock.name stock.id "Fossify Camera" choice,
          stop],
         { s with choices := { s.choices with camera_choice := choice } }, none)

/-- Phase 6: `_phase_extras_selection`. -/
def _phase_extras_selection (cfg : WorkflowConfig)
    (ecb : Option (List AppDefinition → List AppDefinition →
      List String × List String)) (s : WfState) : PhaseResult :=
  let start := emit_phase 6 "Selecting extra apps" true
  match s.getCatalog with
  | .error e => ([start], s, some e)
  | .ok c =>
    let free_apps := c.get_all_extras_free
    let non_free_apps := c.get_all_extras_non_free
    let required : Event := .extrasSelection .EXTRAS_SELECTION_REQUIRED
      "Extra apps selection required"
      (free_apps.map (fun a => a.id)) (non_free_apps.map (fun a => a.id)) [] []
    let selected : Except PyErr (List String × List String) :=
      if cfg.non_interactive then
        match s.getProfile with
        | .error e => .error e
        | .ok p => .ok (p.apps.extras_free, p.apps.extras_non_free)
      else
        match ecb with
        | some f => .ok (f free_apps non_free_apps)
        | none =>
          match s.getProfile with
          | .error e => .error e
          | .ok p => .ok (p.apps.extras_free, p.apps.extras_non_free)
    match selected with
    | .error e => ([start, required], s, some e)
    | .ok (sel_free, sel_non_free) =>
      ([start, required,
        .extrasSelection .EXTRAS_SELECTION_MADE "Extra apps selected"
          (free_apps.map (fun a => a.id)) (non_free_apps.map (fun a => a.id))
          sel_free sel_non_free,
        emit_phase 6 "Selecting extra apps" false],
       { s with choices := { s.choices with
           selected_extras_free := sel_free,
           selected_extras_non_free := sel_non_free } }, none)

/-- Phase 7: `_phase_remove_packages`. -/
def _phase_remove_packages (env : WorkflowEnv) (cfg : WorkflowConfig)
    (s : WfState) : PhaseResult :=
  let start := emit_phase 7 "Removing packages" true
  let conditional_choices : List (String × Bool) :=
    if s.choices.camera_choice == "fossify" then [("camera", true)] else []
  match s.getProfile with
  | .error e => ([start], s, some e)
  | .ok p =>
    match s.getAdb with
    | .error e => ([start], s, some e)
    | .ok _ =>
      let packages := p.get_packages_to_remove conditional_choices
      let out := remove_packages env.adb cfg.dry_run packages
      ([start] ++ out.events ++ [emit_phase 7 "Removing packages" false],
       { s with result := { s.result with
           packages_removed := out.removed,
           packages_skipped := out.skipped,
           packages_failed := out.failed } }, none)

/-- The phase-8 installation list: priority-sorted core apps, plus the
free-extras "camera" entry when the camera choice is "fossify" and that id
exists in the free partition, plus the resolved extras (which may raise
`AppNotFoundError`). -/
def appsToInstall (c : AppsCatalog) (ch : UserChoices) :
    Except AppNotFoundErr (List AppDefinition) :=
  let cam : List AppDefinition :=
    if ch.camera_choice == "fossify" then (alookup c.extras_free "camera").toList
    else []
  match c.resolve_extras ch.selected_extras_free ch.selected_extras_non_free with
  | .error e => .error e
  | .ok extras => .ok (c.get_core_apps_sorted ++ cam ++ extras)

/-- The phase-8 download loop: forward each app's download events; keep
`(app, path)` only when the downloader returned a path. -/
def downloadAll (env : WorkflowEnv) :
    List AppDefinition → List Event × List (AppDefinition × String)
  | [] => ([], [])
  | app :: rest =>
    let (evs, res) := env.download app
    let (evs', dl) := downloadAll env rest
    (evs ++ evs',
     (match res with | some p => [(app, p)] | none => []) ++ dl)

/-- Python dict assignment `d[k] = v`: replace in place when the key exists,
else append. -/
def dictInsert (m : List (String × AppDefinition)) (k : String)
    (v : AppDefinition) : List (String × AppDefinition) :=
  if m.any (fun p => p.1 == k) then
    m.map (fun p => if p.1 == k then (k, v) else p)
  else m ++ [(k, v)]

/-- The phase-8 `default_apps` dict: apps whose id is a known role name,
in installation-list order. -/
def buildDefaultApps (apps : List AppDefinition) :
    List (String × AppDefinition) :=
  apps.foldl
    (fun m app =>
      if app.id == "launcher" || app.id == "dialer" || app.id == "messaging" ||
          app.id == "keyboard" || app.id == "gallery" then
        dictInsert m app.id app
      else m) []

/-- Phase 8: `_phase_download_and_install`. -/
def _phase_download_and_install (env : WorkflowEnv) (cfg : WorkflowConfig)
    (s : WfState) : PhaseResult :=
  let start := emit_phase 8 "Installing apps" true
  match s.getCatalog with
  | .error e => ([start], s, some e)
  | .ok c =>
    match appsToInstall c s.choices with
    | .error anf => ([start], s, some (.other (appNotFoundStr anf)))
    | .ok apps =>
      let (devs, downloaded) := downloadAll env apps
      match s.getAdb with
      | .error e => ([start] ++ devs, s, some e)
      | .ok _ =>
        let inst := install_apps env.adb cfg.dry_run downloaded
        let dflt := set_default_apps env.adb cfg.dry_run (buildDefaultApps apps)
        ([start] ++ devs ++ inst.events ++ dflt.events ++
           [emit_phase 8 "Installing apps" false],
         { s with result := { s.result with
             apps_installed := inst.installed,
             apps_failed := inst.failed } }, none)

/-- Sequencing of phases: events accumulate; a raised exception skips the
remaining phases while keeping the state reached so far. -/
def pstep (r : PhaseResult) (f : WfState → PhaseResult) : PhaseResult :=
  match r with
  | (evs, s, none) =>
    let (evs', s', e') := f s
    (evs ++ evs', s', e')
  | (evs, s, some e) => (evs, s, some e)

/-- The `try` body of `execute`: the eight phases in order. -/
def workflowPhases (env : WorkflowEnv) (cfg : WorkflowConfig)
    (ccb : Option (String → String → String))
    (ecb : Option (List AppDefinition → List AppDefinition →
      List String × List String)) (s : WfState) : PhaseResult :=
  pstep (pstep (pstep (pstep (pstep (pstep (pstep
    (_phase_load_profile env s)
    (_phase_load_catalog env))
    (_phase_connect_device env))
    (_phase_validate_device env))
    (_phase_camera_choice cfg ccb))
    (_phase_extras_selection cfg ecb))
    (_phase_remove_packages env cfg))
    (_phase_download_and_install env cfg)

/-- `ConfigurationWorkflow.execute`: the workflow-started event, the phase
sequence, and the terminal completed/failed event; the two exception
handlers convert any raise into a failed result and a `WORKFLOW_FAILED`
event, so the event stream always terminates cleanly. -/
def execute (env : WorkflowEnv) (cfg : WorkflowConfig)
    (ccb : Option (String → String → String))
    (ecb : Option (List AppDefinition → List AppDefinition →
      List String × List String)) : List Event × WorkflowResult :=
  let started : Event := .workflow .WORKFLOW_STARTED
    "Starting configuration workflow" cfg.profile_path ""
  match workflowPhases env cfg ccb ecb {} with
  | (evs, s, none) =>
    let device_name := match s.device with | some i => i.model | none => ""
    (started :: evs ++
       [.workflow .WORKFLOW_COMPLETED "Configuration completed successfully"
          cfg.profile_path device_name],
     { s.result with success := true })
  | (evs, s, some (.critical m)) =>
    (started :: evs ++ [.workflow .WORKFLOW_FAILED m cfg.profile_path ""],
     { s.result with success := false, error_message := m })
  | (evs, s, some (.other m)) =>
    (started :: evs ++
       [.workflow .WORKFLOW_FAILED ("Unexpected error: " ++ m)
          cfg.profile_path ""],
     { s.result with success := false, error_message := m })

/-- The per-entry success condition of the `install_apps` loop: dry-run
synthesizes success; a real run succeeds when the transport reports success
or the output contains the "success" marker. -/
def installSucceeds (env : ADBEnv) (dry_run : Bool)
    (entry : AppDefinition × String) : Bool :=
  dry_run || (env.install_result entry.2).success ||
    strContains (env.install_result entry.2).stdout.toLower "success"

/-! ## Concrete fixtures

Small concrete profiles, catalogs and oracle environments used to
instantiate the theorems below at explicit inputs. -/

/-- An installed, unconditional, `remove`-action package. -/
def pkgW : PackageToRemove :=
  { id := "com.samsung.android.bixby.agent", name := "Bixby", source := "samsung",
    function := "assistant", category := "bloat", action := "remove" }

/-- The camera-conditional package. -/
def pkgCamW : PackageToRemove :=
  { id := "com.sec.android.app.camera", name := "Samsung Camera",
    source := "samsung", function := "camera", category := "camera",
    action := "remove", conditional := some "camera" }

/-- An unconditional package whose action is `disable`, not `remove`. -/
def pkgDisW : PackageToRemove :=
  { id := "com.samsung.android.svc", name := "Samsung SVC", source := "samsung",
    function := "svc", category := "system", action := "disable" }

/-- A package absent from the installed snapshot but on the Knox set. -/
def pkgGhostW : PackageToRemove :=
  { id := "com.samsung.knox.securefolder", name := "Secure Folder",
    source := "samsung", function := "knox", category := "security",
    action := "remove" }

/-- An installed package on the Knox-protected set. -/
def pkgKnoxW : PackageToRemove :=
  { id := "com.samsung.android.knox.attestation", name := "Knox Attestation",
    source := "samsung", function := "knox", category := "security",
    action := "remove" }

/-- Profile with one unconditional and one camera-conditional package. -/
def profW : DeviceProfile :=
  { path := "profiles/sm-s921.toml",
    device := { model_pattern := "SM-S921*", name := "Galaxy S24",
                android_version := "14", maintainer := "glw907" },
    apps := {}, packages := [pkgW, pkgCamW] }

/-- Profile whose only package is unconditional with action `disable`. -/
def profDisW : DeviceProfile := { profW with packages := [pkgDisW] }

/-- Profile with no camera-conditional package. -/
def profNoCamW : DeviceProfile := { profW with packages := [pkgW] }

/-- A free-extras app definition. -/
def appWeatherW : AppDefinition :=
  { id := "weather", package_id := "org.breezyweather", name := "Breezy Weather",
    source := "fdroid", fdroid_package_name := some "org.breezyweather" }

/-- The free-extras camera replacement. -/
def appCamW : AppDefinition :=
  { id := "camera", package_id := "org.fossify.camera", name := "Fossify Camera",
    source := "fdroid", fdroid_package_name := some "org.fossify.camera" }

/-- A core app definition. -/
def appLauncherW : AppDefinition :=
  { id := "launcher", package_id := "org.fossify.home", name := "Fossify Launcher",
    source := "fdroid", installation_priority := 10 }

/-- A non-free extras app definition. -/
def appSignalW : AppDefinition :=
  { id := "signal", package_id := "org.thoughtcrime.securesms", name := "Signal",
    source := "direct", download_url := some "https://signal.org/apk" }

/-- A small three-partition catalog. -/
def catW : AppsCatalog :=
  { core_apps := [("launcher", appLauncherW)],
    extras_free := [("weather", appWeatherW), ("camera", appCamW)],
    extras_non_free := [("signal", appSignalW)] }

/-- An always-succeeding `ADBResult`. -/
def okResW : ADBResult := ⟨0, "Success", ""⟩

/-- Transport oracle: `pkgW` and `pkgKnoxW` installed, every mutating call
succeeding. -/
def adbEnvW : ADBEnv :=
  { installed_packages := [pkgW.id, pkgKnoxW.id],
    uninstall_result := fun _ => okResW,
    install_result := fun _ => okResW,
    role_result := fun _ _ => okResW }

/-- Non-interactive workflow configuration. -/
def cfgW : WorkflowConfig :=
  { profile_path := "profiles/sm-s921.toml", project_root := ".",
    non_interactive := true }

/-- A fully healthy workflow oracle. -/
def wenvW : WorkflowEnv :=
  { load_profile := .ok profW,
    load_catalog := .ok catW,
    connect := .ok ⟨"R5CX1234", "SM-S921B", "14", "samsung"⟩,
    model_matches := fun _ => true,
    download := fun a => ([], some (a.id ++ ".apk")),
    adb := adbEnvW }

/-- Workflow oracle whose device connection fails with a non-critical
exception (exercises the catch-all handler). -/
def wenvFailW : WorkflowEnv :=
  { wenvW with connect := .error (.other "No device connected") }

/-- Orchestrator state after loading `profW` and `catW` and connecting. -/
def sLoadedW : WfState :=
  { profile := some profW, catalog := some catW,
    device := some ⟨"R5CX1234", "SM-S921B", "14", "samsung"⟩ }

/-- Loaded state whose profile has no camera-conditional package. -/
def sNoCamW : WfState := { sLoadedW with profile := some profNoCamW }

/-- Choices selecting the free `weather` extra, camera unresolved. -/
def chW : UserChoices := { selected_extras_free := ["weather"] }

/-- Loaded state carrying `chW`. -/
def sChW : WfState := { sLoadedW with choices := chW }

/-- Choices after a "fossify" camera decision that also selected the
`camera` free extra. -/
def chCamW : UserChoices :=
  { camera_choice := "fossify", selected_extras_free := ["camera"] }

/-- Loaded state carrying `chCamW`. -/
def sCamW : WfState := { sLoadedW with choices := chCamW }

/-- Workflow oracle whose downloader fails for the `weather` app and
succeeds for every other app. -/
def wenvDlFailW : WorkflowEnv :=
  { wenvW with download := fun a =>
      if a.id == "weather" then ([], none) else ([], some (a.id ++ ".apk")) }

/-! ## Theorems: package remover -/

theorem remove_one_counts (env : ADBEnv) (d : Bool) (p : PackageToRemove) :
    (remove_one env d p).removed + (remove_one env d p).skipped +
      (remove_one env d p).failed = 1 := by
  by_cases h1 : p.id ∈ env.installed_packages
  · by_cases h2 : p.id ∈ KNOX_PROTECTED_PACKAGES
    · simp [remove_one, h1, h2]
    · cases d with
      | true => simp [remove_one, h1, h2]
      | false =>
        by_cases h3 : ((env.uninstall_result p.id).success ||
            strContains (env.uninstall_result p.id).stdout.toLower "success") = true
        · simp [remove_one, h1, h2, h3]
        · simp [remove_one, h1, h2, h3]
  · simp [remove_one, h1]

theorem remove_one_events_ne_nil (env : ADBEnv) (d : Bool) (p : PackageToRemove) :
    (remove_one env d p).events ≠ [] := by
  by_cases h1 : p.id ∈ env.installed_packages
  · by_cases h2 : p.id ∈ KNOX_PROTECTED_PACKAGES
    · simp [remove_one, h1, h2]
    · cases d with
      | true => simp [remove_one, h1, h2]
      | false =>
        by_cases h3 : ((env.uninstall_result p.id).success ||
            strContains (env.uninstall_result p.id).stdout.toLower "success") = true
        · simp [remove_one, h1, h2, h3]
        · simp [remove_one, h1, h2, h3]
  · simp [remove_one, h1]

theorem remove_packages_events_eq (env : ADBEnv) (d : Bool)
    (pkgs : List PackageToRemove) :
    (remove_packages env d pkgs).events =
      pkgs.flatMap (fun p => (remove_one env d p).events) := by
  induction pkgs with
  | nil => rfl
  | cons p rest ih => simp [remove_packages, RemoverOutput.append, ih]

theorem remove_packages_counts (env : ADBEnv) (d : Bool)
    (pkgs : List PackageToRemove) :
    (remove_packages env d pkgs).removed + (remove_packages env d pkgs).skipped +
      (remove_packages env d pkgs).failed = pkgs.length := by
  induction pkgs with
  | nil => rfl
  | cons p rest ih =>
    have h := remove_one_counts env d p
    simp only [remove_packages, RemoverOutput.append, List.length_cons]
    omega

theorem remove_one_calls_sound (env : ADBEnv) (d : Bool) (p : PackageToRemove)
    (c : TransportCall) (hc : c ∈ (remove_one env d p).calls) :
    c = .uninstall p.id ∧ p.id ∈ env.installed_packages ∧
      p.id ∉ KNOX_PROTECTED_PACKAGES ∧ d = false := by
  by_cases h1 : p.id ∈ env.installed_packages
  · by_cases h2 : p.id ∈ KNOX_PROTECTED_PACKAGES
    · simp [remove_one, h1, h2] at hc
    · cases d with
      | true => simp [remove_one, h1, h2] at hc
      | false =>
        refine ⟨?_, h1, h2, rfl⟩
        by_cases h3 : ((env.uninstall_result p.id).success ||
            strContains (env.uninstall_result p.id).stdout.toLower "success") = true
        · simp [remove_one, h1, h2, h3] at hc
          exact hc
        · simp [remove_one, h1, h2, h3] at hc
          exact hc
  · simp [remove_one, h1] at hc

theorem remove_packages_calls_sound (env : ADBEnv) (d : Bool)
    (pkgs : List PackageToRemove) (c : TransportCall)
    (hc : c ∈ (remove_packages env d pkgs).calls) :
    ∃ p ∈ pkgs, c = .uninstall p.id ∧
      p.id ∈ env.installed_packages ∧
      p.id ∉ KNOX_PROTECTED_PACKAGES ∧ d = false := by
  induction pkgs with
  | nil => simp [remove_packages] at hc
  | cons p rest ih =>
    simp only [remove_packages, RemoverOutput.append, List.mem_append] at hc
    rcases hc with hc | hc
    · exact ⟨p, by simp, remove_one_calls_sound env d p c hc⟩
    · obtain ⟨q, hq, hrest⟩ := ih hc
      exact ⟨q, by simp [hq], hrest⟩

/-- C1: `PackageRemover.remove_packages` processes every package — its
event stream is the concatenation of one nonempty per-package block, a
failure on one package never stopping the rest — and the returned counts
are an exhaustive partition of the input: removed + skipped + failed equals
the length of the input list. -/
theorem C1_remove_packages_partition (env : ADBEnv) (dry_run : Bool)
    (packages : List PackageToRemove) :
    (remove_packages env dry_run packages).removed +
        (remove_packages env dry_run packages).skipped +
        (remove_packages env dry_run packages).failed = packages.length ∧
    (remove_packages env dry_run packages).events =
      packages.flatMap (fun p => (remove_one env dry_run p).events) ∧
    ∀ p ∈ packages, (remove_one env dry_run p).events ≠ [] :=
  ⟨remove_packages_counts env dry_run packages,
   remove_packages_events_eq env dry_run packages,
   fun p _ => remove_one_events_ne_nil env dry_run p⟩

/-- Witness for C1 at a concrete three-package input. -/
theorem C1_remove_packages_partition_witness :
    (remove_packages adbEnvW false [pkgW, pkgGhostW, pkgKnoxW]).removed +
        (remove_packages adbEnvW false [pkgW, pkgGhostW, pkgKnoxW]).skipped +
        (remove_packages adbEnvW false [pkgW, pkgGhostW, pkgKnoxW]).failed = 3 ∧
    (remove_one adbEnvW false pkgW).events ≠ [] :=
  ⟨(C1_remove_packages_partition adbEnvW false [pkgW, pkgGhostW, pkgKnoxW]).1,
   (C1_remove_packages_partition adbEnvW false [pkgW, pkgGhostW, pkgKnoxW]).2.2
     pkgW (by simp)⟩

/-- C7: classification precedence in `remove_packages` — a package absent
from the installed snapshot is classified not-installed and no removal call
is ever issued for its id, regardless of Knox membership; an installed
package on the Knox set is classified skipped and no removal call is ever
issued for its id. -/
theorem C7_remove_packages_precedence (env : ADBEnv) (dry_run : Bool)
    (packages : List PackageToRemove) (pkg : PackageToRemove)
    (_hmem : pkg ∈ packages) :
    (pkg.id ∉ env.installed_packages →
      remove_one env dry_run pkg =
        ⟨[.package .PACKAGE_NOT_INSTALLED ("Not installed: " ++ pkg.name)
            pkg.id pkg.name "Package not found on device"], 0, 1, 0, []⟩ ∧
      TransportCall.uninstall pkg.id ∉
        (remove_packages env dry_run packages).calls) ∧
    (pkg.id ∈ env.installed_packages →
      pkg.id ∈ KNOX_PROTECTED_PACKAGES →
      remove_one env dry_run pkg =
        ⟨[.package .PACKAGE_REMOVAL_SKIPPED ("Knox protected: " ++ pkg.name)
            pkg.id pkg.name "Package is protected by Samsung Knox"], 0, 1, 0, []⟩ ∧
      TransportCall.uninstall pkg.id ∉
        (remove_packages env dry_run packages).calls) := by
  constructor
  · intro hni
    refine ⟨by simp [remove_one, hni], ?_⟩
    intro hc
    obtain ⟨q, _, heq, hinst, _, _⟩ :=
      remove_packages_calls_sound env dry_run packages _ hc
    injection heq with hid
    rw [hid] at hni
    exact hni hinst
  · intro hin hknox
    refine ⟨by simp [remove_one, hin, hknox], ?_⟩
    intro hc
    obtain ⟨q, _, heq, _, hk, _⟩ :=
      remove_packages_calls_sound env dry_run packages _ hc
    injection heq with hid
    rw [hid] at hknox
    exact hk hknox

/-- Witness for C7: the ghost package (absent, Knox-listed) and the Knox
package (installed, Knox-listed) in a concrete run. -/
theorem C7_remove_packages_precedence_witness :
    (pkgGhostW.id ∉ adbEnvW.installed_packages ∧
      TransportCall.uninstall pkgGhostW.id ∉
        (remove_packages adbEnvW false [pkgW, pkgGhostW, pkgKnoxW]).calls) ∧
    (pkgKnoxW.id ∈ adbEnvW.installed_packages ∧
      TransportCall.uninstall pkgKnoxW.id ∉
        (remove_packages adbEnvW false [pkgW, pkgGhostW, pkgKnoxW]).calls) :=
  ⟨⟨by decide,
    ((C7_remove_packages_precedence adbEnvW false [pkgW, pkgGhostW, pkgKnoxW]
        pkgGhostW (by simp)).1 (by decide)).2⟩,
   ⟨by decide,
    ((C7_remove_packages_precedence adbEnvW false [pkgW, pkgGhostW, pkgKnoxW]
        pkgKnoxW (by simp)).2 (by decide) (by decide)).2⟩⟩

/-! ## Theorems: conditional package filtering (profile) -/

/-- C3 counterexample: a profile whose only package is non-conditional but
carries action `disable`.  The claim demands that
`get_packages_to_remove({"camera": true})` contain every non-conditional
package, yet the code filters on `action == "remove"` first and returns the
empty list here. -/
theorem C3_counterexample :
    profDisW.packages = [pkgDisW] ∧ pkgDisW.conditional = none ∧
    profDisW.get_packages_to_remove [("camera", true)] = [] := by decide

/-- C3 (amended): `get_packages_to_remove({})` returns no package with a
non-null `conditional`; `get_packages_to_remove({"camera": true})` returns
exactly the `remove`-action packages that are non-conditional or
camera-conditional (the `action == "remove"` filter applies throughout). -/
theorem C3_conditional_filter (p : DeviceProfile) :
    (∀ pkg ∈ p.get_packages_to_remove [], pkg.conditional = none) ∧
    p.get_packages_to_remove [("camera", true)] =
      p.packages.filter (fun pkg => pkg.action == "remove" &&
        (pkg.conditional == none || pkg.conditional == some "camera")) := by
  constructor
  · intro pkg hmem
    rw [DeviceProfile.get_packages_to_remove, List.mem_filter] at hmem
    obtain ⟨-, hpred⟩ := hmem
    cases hcond : pkg.conditional with
    | none => rfl
    | some c => simp [hcond, alookup] at hpred
  · rw [DeviceProfile.get_packages_to_remove]
    apply List.filter_congr
    intro pkg _
    cases hcond : pkg.conditional with
    | none => simp [hcond]
    | some c =>
      by_cases hc : "camera" = c
      · subst hc
        simp [hcond, alookup]
      · have hc2 : c ≠ "camera" := fun h => hc h.symm
        simp [hcond, alookup, hc, hc2]

/-- Witness for C3 (amended): the unconditional package of `profW` is
returned by the empty-choices call and is indeed non-conditional. -/
theorem C3_conditional_filter_witness :
    pkgW ∈ profW.get_packages_to_remove [] ∧ pkgW.conditional = none :=
  ⟨by decide, (C3_conditional_filter profW).1 pkgW (by decide)⟩

/-! ## Theorems: catalog extras resolution -/

theorem resolveIn_ok_of_all_some (part : List (String × AppDefinition))
    (label : String) (ids : List String)
    (h : ∀ id ∈ ids, (alookup part id).isSome) :
    resolveIn part label ids = .ok (ids.filterMap (alookup part)) := by
  induction ids with
  | nil => rfl
  | cons x rest ih =>
    obtain ⟨a, ha⟩ := Option.isSome_iff_exists.mp (h x (by simp))
    simp [resolveIn, ha, ih (fun id hid => h id (by simp [hid]))]

theorem resolveIn_error_first (part : List (String × AppDefinition))
    (label : String) (pre : List String) (x : String) (rest : List String)
    (hpre : ∀ id ∈ pre, (alookup part id).isSome)
    (hx : alookup part x = none) :
    resolveIn part label (pre ++ x :: rest) = .error ⟨x, label⟩ := by
  induction pre with
  | nil => simp [resolveIn, hx]
  | cons y ys ih =>
    obtain ⟨a, ha⟩ := Option.isSome_iff_exists.mp (hpre y (by simp))
    have hys := ih (fun id hid => hpre id (by simp [hid]))
    simp [resolveIn, ha, hys]

theorem resolveIn_ok_elim (part : List (String × AppDefinition))
    (label : String) (ids : List String) (l : List AppDefinition)
    (h : resolveIn part label ids = .ok l) :
    l = ids.filterMap (alookup part) ∧
      ∀ id ∈ ids, (alookup part id).isSome := by
  induction ids generalizing l with
  | nil =>
    simp only [resolveIn] at h
    injection h with h
    simp [← h]
  | cons x rest ih =>
    simp only [resolveIn] at h
    cases ha : alookup part x with
    | none => rw [ha] at h; cases h
    | some a =>
      rw [ha] at h
      cases hr : resolveIn part label rest with
      | error e => rw [hr] at h; cases h
      | ok tl =>
        rw [hr] at h
        injection h with h
        obtain ⟨htl, hall⟩ := ih tl hr
        refine ⟨?_, ?_⟩
        · simp [← h, List.filterMap_cons, ha, htl]
        · intro id hid
          rcases List.mem_cons.mp hid with hid | hid
          · simp [hid, ha]
          · exact hall id hid

/-- C6: `AppsCatalog.resolve_extras` resolves free ids strictly against the
free partition and non-free ids strictly against the non-free partition, in
input order (free ids first); at the first id absent from its matching
partition it fails with `AppNotFound` naming that id and partition, and the
error return carries no partial result. -/
theorem C6_resolve_extras_strict (c : AppsCatalog)
    (free_ids non_free_ids : List String) :
    ((∀ id ∈ free_ids, (alookup c.extras_free id).isSome) →
      (∀ id ∈ non_free_ids, (alookup c.extras_non_free id).isSome) →
      c.resolve_extras free_ids non_free_ids =
        .ok (free_ids.filterMap (alookup c.extras_free) ++
             non_free_ids.filterMap (alookup c.extras_non_free))) ∧
    (∀ pre x rest, free_ids = pre ++ x :: rest →
      (∀ id ∈ pre, (alookup c.extras_free id).isSome) →
      alookup c.extras_free x = none →
      c.resolve_extras free_ids non_free_ids = .error ⟨x, "extras_free"⟩) ∧
    (∀ pre x rest, non_free_ids = pre ++ x :: rest →
      (∀ id ∈ free_ids, (alookup c.extras_free id).isSome) →
      (∀ id ∈ pre, (alookup c.extras_non_free id).isSome) →
      alookup c.extras_non_free x = none →
      c.resolve_extras free_ids non_free_ids = .error ⟨x, "extras_non_free"⟩) := by
  refine ⟨?_, ?_, ?_⟩
  · intro hf hn
    rw [AppsCatalog.resolve_extras,
      resolveIn_ok_of_all_some _ _ _ hf, resolveIn_ok_of_all_some _ _ _ hn]
  · intro pre x rest hsplit hpre hx
    rw [AppsCatalog.resolve_extras, hsplit,
      resolveIn_error_first _ _ _ _ _ hpre hx]
  · intro pre x rest hsplit hf hpre hx
    rw [AppsCatalog.resolve_extras, resolveIn_ok_of_all_some _ _ _ hf, hsplit,
      resolveIn_error_first _ _ _ _ _ hpre hx]

/-- Witness for C6 at the concrete catalog: `weather` (declared free)
resolves; `ghost` (nowhere) fails naming `extras_free`; `signal` (declared
only non-free) requested as free also fails naming `extras_free`. -/
theorem C6_resolve_extras_strict_witness :
    catW.resolve_extras ["weather"] [] = .ok [appWeatherW] ∧
    catW.resolve_extras ["ghost"] [] = .error ⟨"ghost", "extras_free"⟩ ∧
    catW.resolve_extras ["signal"] [] = .error ⟨"signal", "extras_free"⟩ := by
  refine ⟨?_, ?_, ?_⟩
  · have h := (C6_resolve_extras_strict catW ["weather"] []).1
      (by decide) (by simp)
    rw [h]
    rfl
  · exact (C6_resolve_extras_strict catW ["ghost"] []).2.1 [] "ghost" [] rfl
      (by simp) (by decide)
  · exact (C6_resolve_extras_strict catW ["signal"] []).2.1 [] "signal" [] rfl
      (by simp) (by decide)

/-! ## Theorems: installer and dry-run frame -/

theorem install_one_split (env : ADBEnv) (d : Bool) (e : AppDefinition × String) :
    (install_one env d e).installed = (if installSucceeds env d e then 1 else 0) ∧
    (install_one env d e).failed = (if installSucceeds env d e then 0 else 1) := by
  cases d with
  | true => simp [install_one, installSucceeds]
  | false =>
    by_cases h : ((env.install_result e.2).success ||
        strContains (env.install_result e.2).stdout.toLower "success") = true
    · simp only [install_one, installSucceeds, Bool.false_or, h]
      simp
    · simp only [install_one, installSucceeds, Bool.false_or, h]
      simp at h
      simp [h]

theorem install_apps_counts (env : ADBEnv) (d : Bool)
    (l : List (AppDefinition × String)) :
    (install_apps env d l).installed = l.countP (installSucceeds env d) ∧
    (install_apps env d l).failed = l.countP (fun e => !(installSucceeds env d e)) := by
  induction l with
  | nil => simp [install_apps, List.countP_nil]
  | cons e rest ih =>
    have h := install_one_split env d e
    simp only [install_apps, InstallerOutput.append, List.countP_cons, ih.1, ih.2,
      h.1, h.2]
    by_cases hs : installSucceeds env d e <;> simp [hs] <;> omega

theorem install_apps_sum (env : ADBEnv) (d : Bool)
    (l : List (AppDefinition × String)) :
    (install_apps env d l).installed + (install_apps env d l).failed = l.length := by
  induction l with
  | nil => rfl
  | cons e rest ih =>
    have h1 := (install_one_split env d e).1
    have h2 := (install_one_split env d e).2
    simp only [install_apps, InstallerOutput.append, List.length_cons]
    by_cases hs : installSucceeds env d e <;> simp [hs] at h1 h2 <;> omega

theorem remove_one_dry_real (env env' : ADBEnv) (p : PackageToRemove)
    (hinst : env'.installed_packages = env.installed_packages)
    (hu : ∀ id, ((env'.uninstall_result id).success ||
      strContains (env'.uninstall_result id).stdout.toLower "success") = true) :
    (remove_one env true p).removed = (remove_one env' false p).removed ∧
    (remove_one env true p).skipped = (remove_one env' false p).skipped ∧
    (remove_one env true p).failed = (remove_one env' false p).failed ∧
    (remove_one env true p).events.map Event.skeleton =
      (remove_one env' false p).events.map Event.skeleton := by
  by_cases h1 : p.id ∈ env.installed_packages
  · by_cases h2 : p.id ∈ KNOX_PROTECTED_PACKAGES
    · simp [remove_one, h1, h2, hinst]
    · simp [remove_one, h1, h2, hinst, hu p.id, Event.skeleton]
  · simp [remove_one, h1, hinst]

theorem remove_packages_dry_real (env env' : ADBEnv)
    (pkgs : List PackageToRemove)
    (hinst : env'.installed_packages = env.installed_packages)
    (hu : ∀ id, ((env'.uninstall_result id).success ||
      strContains (env'.uninstall_result id).stdout.toLower "success") = true) :
    (remove_packages env true pkgs).removed = (remove_packages env' false pkgs).removed ∧
    (remove_packages env true pkgs).skipped = (remove_packages env' false pkgs).skipped ∧
    (remove_packages env true pkgs).failed = (remove_packages env' false pkgs).failed ∧
    (remove_packages env true pkgs).events.map Event.skeleton =
      (remove_packages env' false pkgs).events.map Event.skeleton := by
  induction pkgs with
  | nil => simp [remove_packages]
  | cons p rest ih =>
    have h := remove_one_dry_real env env' p hinst hu
    simp only [remove_packages, RemoverOutput.append, List.map_append,
      h.1, h.2.1, h.2.2.1, h.2.2.2, ih.1, ih.2.1, ih.2.2.1, ih.2.2.2]
    simp

theorem install_one_dry_real (env env' : ADBEnv) (e : AppDefinition × String)
    (hi : ∀ pth, ((env'.install_result pth).success ||
      strContains (env'.install_result pth).stdout.toLower "success") = true) :
    (install_one env true e).installed = (install_one env' false e).installed ∧
    (install_one env true e).failed = (install_one env' false e).failed ∧
    (install_one env true e).events.map Event.skeleton =
      (install_one env' false e).events.map Event.skeleton := by
  simp [install_one, hi e.2, Event.skeleton]

theorem install_apps_dry_real (env env' : ADBEnv)
    (apps : List (AppDefinition × String))
    (hi : ∀ pth, ((env'.install_result pth).success ||
      strContains (env'.install_result pth).stdout.toLower "success") = true) :
    (install_apps env true apps).installed = (install_apps env' false apps).installed ∧
    (install_apps env true apps).failed = (install_apps env' false apps).failed ∧
    (install_apps env true apps).events.map Event.skeleton =
      (install_apps env' false apps).events.map Event.skeleton := by
  induction apps with
  | nil => simp [install_apps]
  | cons e rest ih =>
    have h := install_one_dry_real env env' e hi
    simp only [install_apps, InstallerOutput.append, List.map_append,
      h.1, h.2.1, h.2.2, ih.1, ih.2.1, ih.2.2]
    simp

theorem set_default_one_dry_real (env env' : ADBEnv)
    (e : String × AppDefinition)
    (hr : ∀ rid pid, (env'.role_result rid pid).success = true) :
    (set_default_one env true e).events.map Event.skeleton =
      (set_default_one env' false e).events.map Event.skeleton := by
  cases h : alookup role_methods e.1 with
  | none => simp [set_default_one, h]
  | some rn => simp [set_default_one, h, hr e.1 e.2.package_id, Event.skeleton]

theorem set_default_apps_dry_real (env env' : ADBEnv)
    (roles : List (String × AppDefinition))
    (hr : ∀ rid pid, (env'.role_result rid pid).success = true) :
    (set_default_apps env true roles).events.map Event.skeleton =
      (set_default_apps env' false roles).events.map Event.skeleton := by
  induction roles with
  | nil => simp [set_default_apps]
  | cons e rest ih =>
    have h := set_default_one_dry_real env env' e hr
    simp only [set_default_apps, DefaultAppsOutput.append, List.map_append, h, ih]

theorem remove_packages_dry_calls (env : ADBEnv) (pkgs : List PackageToRemove) :
    (remove_packages env true pkgs).calls = [] := by
  rw [List.eq_nil_iff_forall_not_mem]
  intro c hc
  obtain ⟨-, -, -, -, -, hd⟩ := remove_packages_calls_sound env true pkgs c hc
  cases hd

theorem install_apps_dry_calls (env : ADBEnv)
    (apps : List (AppDefinition × String)) :
    (install_apps env true apps).calls = [] := by
  induction apps with
  | nil => rfl
  | cons e rest ih => simp [install_apps, InstallerOutput.append, install_one, ih]

theorem set_default_apps_dry_calls (env : ADBEnv)
    (roles : List (String × AppDefinition)) :
    (set_default_apps env true roles).calls = [] := by
  induction roles with
  | nil => rfl
  | cons e rest ih =>
    have h : (set_default_one env true e).calls = [] := by
      cases h : alookup role_methods e.1 with
      | none => simp [set_default_one, h]
      | some rn => simp [set_default_one, h]
    simp [set_default_apps, DefaultAppsOutput.append, h, ih]

/-- C8 counterexample: for one installed unprotected package under an
always-succeeding transport, dry-run and real-run report the same removed
count but their emitted event lists are not equal — the dry-run success
event message reads "Would remove: ... (dry run)" while a fully successful
real run reads "Removed: ...". -/
theorem C8_counterexample :
    (remove_packages adbEnvW true [pkgW]).removed =
      (remove_packages adbEnvW false [pkgW]).removed ∧
    (remove_packages adbEnvW true [pkgW]).events ≠
      (remove_packages adbEnvW false [pkgW]).events := by decide

/-- C8 (amended): dry-run never issues a mutating transport call from
`remove_packages`, `install_apps` or `set_default_apps`, and its counts and
event skeletons (event type plus subject id) equal those of a fully
successful real run over a transport with the same installed snapshot; only
the human-readable messages differ ("... (dry run)"). -/
theorem C8_dry_run_frame (env env' : ADBEnv)
    (pkgs : List PackageToRemove) (apps : List (AppDefinition × String))
    (roles : List (String × AppDefinition))
    (hinst : env'.installed_packages = env.installed_packages)
    (hu : ∀ id, ((env'.uninstall_result id).success ||
      strContains (env'.uninstall_result id).stdout.toLower "success") = true)
    (hi : ∀ pth, ((env'.install_result pth).success ||
      strContains (env'.install_result pth).stdout.toLower "success") = true)
    (hr : ∀ rid pid, (env'.role_result rid pid).success = true) :
    (remove_packages env true pkgs).calls = [] ∧
    (install_apps env true apps).calls = [] ∧
    (set_default_apps env true roles).calls = [] ∧
    (remove_packages env true pkgs).removed =
      (remove_packages env' false pkgs).removed ∧
    (remove_packages env true pkgs).skipped =
      (remove_packages env' false pkgs).skipped ∧
    (remove_packages env true pkgs).failed =
      (remove_packages env' false pkgs).failed ∧
    (install_apps env true apps).installed =
      (install_apps env' false apps).installed ∧
    (install_apps env true apps).failed =
      (install_apps env' false apps).failed ∧
    (remove_packages env true pkgs).events.map Event.skeleton =
      (remove_packages env' false pkgs).events.map Event.skeleton ∧
    (install_apps env true apps).events.map Event.skeleton =
      (install_apps env' false apps).events.map Event.skeleton ∧
    (set_default_apps env true roles).events.map Event.skeleton =
      (set_default_apps env' false roles).events.map Event.skeleton := by
  have h1 := remove_packages_dry_real env env' pkgs hinst hu
  have h2 := install_apps_dry_real env env' apps hi
  have h3 := set_default_apps_dry_real env env' roles hr
  exact ⟨remove_packages_dry_calls env pkgs, install_apps_dry_calls env apps,
    set_default_apps_dry_calls env roles, h1.1, h1.2.1, h1.2.2.1, h2.1, h2.2.1,
    h1.2.2.2, h2.2.2, h3⟩

/-- Witness for C8 (amended) at the concrete transport and inputs. -/
theorem C8_dry_run_frame_witness :
    (remove_packages adbEnvW true [pkgW, pkgKnoxW]).calls = [] ∧
    (install_apps adbEnvW true [(appWeatherW, "weather.apk")]).calls = [] ∧
    (set_default_apps adbEnvW true [("launcher", appLauncherW)]).calls = [] ∧
    (remove_packages adbEnvW true [pkgW, pkgKnoxW]).removed =
      (remove_packages adbEnvW false [pkgW, pkgKnoxW]).removed :=
  have h := C8_dry_run_frame adbEnvW adbEnvW [pkgW, pkgKnoxW]
    [(appWeatherW, "weather.apk")] [("launcher", appLauncherW)]
    rfl (fun _ => rfl) (fun _ => rfl) (fun _ _ => rfl)
  ⟨h.1, h.2.1, h.2.2.1, h.2.2.2.1⟩

/-- C9 counterexample: `set_default_apps` iterates the input map in its own
insertion order, not the fixed role-table order — a map listing gallery
before launcher emits the gallery event first, while the claimed fixed
order launcher/dialer/messaging/keyboard/gallery would emit launcher
first. -/
theorem C9_counterexample :
    ((set_default_apps adbEnvW true
        [("gallery", appWeatherW), ("launcher", appCamW)]).events.map
      Event.skeleton) =
      [(.DEFAULT_APP_SET, "weather"), (.DEFAULT_APP_SET, "camera")] ∧
    [((.DEFAULT_APP_SET : EventType), "weather"), (.DEFAULT_APP_SET, "camera")] ≠
      [(.DEFAULT_APP_SET, "camera"), (.DEFAULT_APP_SET, "weather")] := by decide

/-- C9 (amended): `set_default_apps` iterates the input role → definition
map in its insertion order, processing exactly the entries whose key is in
the fixed role table (launcher/dialer/messaging/keyboard/gallery) and
skipping the rest; each processed entry emits exactly one set-or-failed
event; the function yields only its event stream, no aggregate value. -/
theorem C9_set_default_apps_iteration (env : ADBEnv) (dry_run : Bool)
    (apps : List (String × AppDefinition)) :
    (set_default_apps env dry_run apps).events =
      apps.flatMap (fun e => (set_default_one env dry_run e).events) ∧
    (∀ role_id app, alookup role_methods role_id = none →
      (set_default_one env dry_run (role_id, app)).events = []) ∧
    (∀ role_id app role_name, alookup role_methods role_id = some role_name →
      ∃ ev, (set_default_one env dry_run (role_id, app)).events = [ev] ∧
        (ev.etype = .DEFAULT_APP_SET ∨ ev.etype = .DEFAULT_APP_FAILED)) := by
  refine ⟨?_, ?_, ?_⟩
  · induction apps with
    | nil => rfl
    | cons e rest ih => simp [set_default_apps, DefaultAppsOutput.append, ih]
  · intro role_id app h
    simp [set_default_one, h]
  · intro role_id app role_name h
    cases dry_run with
    | true =>
      refine ⟨.defaultApp .DEFAULT_APP_SET
        ("Would set " ++ app.name ++ " as default " ++ role_name ++ " (dry run)")
        app.id app.name role_name, ?_, Or.inl rfl⟩
      simp [set_default_one, h]
    | false =>
      by_cases hs : (env.role_result role_id app.package_id).success = true
      · refine ⟨.defaultApp .DEFAULT_APP_SET
          ("Set " ++ app.name ++ " as default " ++ role_name)
          app.id app.name role_name, ?_, Or.inl rfl⟩
        simp [set_default_one, h, hs]
      · refine ⟨.defaultApp .DEFAULT_APP_FAILED
          ("Failed to set " ++ app.name ++ " as default " ++ role_name ++ ": " ++
            (env.role_result role_id app.package_id).stderr)
          app.id app.name role_name, ?_, Or.inr rfl⟩
        simp [set_default_one, h, hs]

/-- Witness for C9 (amended): a non-role key is skipped, a gallery entry
emits exactly one set-or-failed event. -/
theorem C9_set_default_apps_iteration_witness :
    alookup role_methods "browser" = none ∧
    (set_default_one adbEnvW true ("browser", appSignalW)).events = [] ∧
    alookup role_methods "gallery" = some "GALLERY" ∧
    ∃ ev, (set_default_one adbEnvW true ("gallery", appWeatherW)).events = [ev] ∧
      (ev.etype = .DEFAULT_APP_SET ∨ ev.etype = .DEFAULT_APP_FAILED) :=
  ⟨by decide,
   (C9_set_default_apps_iteration adbEnvW true []).2.1 "browser" appSignalW
     (by decide),
   by decide,
   (C9_set_default_apps_iteration adbEnvW true []).2.2 "gallery" appWeatherW
     "GALLERY" (by decide)⟩

/-! ## Theorems: workflow orchestrator -/

theorem getLast?_cons_concat (a : Event) (l : List Event) (b : Event) :
    (a :: (l ++ [b])).getLast? = some b := by
  rw [← List.cons_append, List.getLast?_concat]

/-- C2: whenever any phase raises (a `CriticalConfigurationError` or, via
the catch-all, any other exception), `execute` still terminates its event
stream cleanly: the result has `success = false` and `error_message` set to
the raised error's message, and the last yielded event is a
`WORKFLOW_FAILED` event.  (`execute` is a total function of the oracle, so
termination itself is by construction.) -/
theorem C2_execute_fatal_terminates (env : WorkflowEnv) (cfg : WorkflowConfig)
    (ccb : Option (String → String → String))
    (ecb : Option (List AppDefinition → List AppDefinition →
      List String × List String))
    (evs : List Event) (s : WfState) (e : PyErr)
    (h : workflowPhases env cfg ccb ecb {} = (evs, s, some e)) :
    (execute env cfg ccb ecb).2.success = false ∧
    (execute env cfg ccb ecb).2.error_message = e.msg ∧
    ∃ ev, (execute env cfg ccb ecb).1.getLast? = some ev ∧
      ev.etype = .WORKFLOW_FAILED := by
  cases e with
  | critical m =>
    refine ⟨?_, ?_, ?_⟩
    · simp [execute, h]
    · simp [execute, h, PyErr.msg]
    · simp only [execute, h]
      exact ⟨.workflow .WORKFLOW_FAILED m cfg.profile_path "",
        getLast?_cons_concat _ _ _, rfl⟩
  | other m =>
    refine ⟨?_, ?_, ?_⟩
    · simp [execute, h]
    · simp [execute, h, PyErr.msg]
    · simp only [execute, h]
      exact ⟨.workflow .WORKFLOW_FAILED ("Unexpected error: " ++ m)
        cfg.profile_path "", getLast?_cons_concat _ _ _, rfl⟩

/-- Witness for C2: a run whose device connection raises a non-critical
error caught by the catch-all handler. -/
theorem C2_execute_fatal_terminates_witness :
    (execute wenvFailW cfgW none none).2.success = false ∧
    (execute wenvFailW cfgW none none).2.error_message = "No device connected" ∧
    ∃ ev, (execute wenvFailW cfgW none none).1.getLast? = some ev ∧
      ev.etype = .WORKFLOW_FAILED :=
  C2_execute_fatal_terminates wenvFailW cfgW none none _ _
    (.other "No device connected") rfl

theorem find?_isSome_of_any {α : Type} (l : List α) (q : α → Bool) (x : α)
    (hmem : x ∈ l) (hx : q x = true) : ∃ y, l.find? q = some y := by
  induction l with
  | nil => cases hmem
  | cons a rest ih =>
    cases hq : q a with
    | true => exact ⟨a, List.find?_cons_of_pos _ hq⟩
    | false =>
      rw [List.find?_cons_of_neg _ (by simp [hq])]
      rcases List.mem_cons.mp hmem with h | h
      · subst h; simp [hq] at hx
      · exact ih h

theorem stock_camera_of_has_choice (p : DeviceProfile)
    (h : p.has_camera_choice = true) :
    ∃ stock, p.get_stock_camera_package = some stock := by
  rw [DeviceProfile.has_camera_choice, List.any_eq_true] at h
  rw [DeviceProfile.get_stock_camera_package]
  obtain ⟨pkg, hmem, hcond⟩ := h
  exact find?_isSome_of_any p.packages _ pkg hmem hcond

/-- C4: the camera-choice phase.  With no camera-conditional package it
emits only its two phase-boundary events and leaves the state (hence the
camera choice) untouched.  Otherwise it resolves the choice with the
precedence non-interactive → "stock" (even when a callback is supplied),
else callback value, else "stock", stores it, and emits it in the
`CAMERA_CHOICE_MADE` event. -/
theorem C4_camera_choice_phase (cfg : WorkflowConfig)
    (ccb : Option (String → String → String)) (s : WfState) (p : DeviceProfile)
    (hp : s.profile = some p) :
    (p.has_camera_choice = false →
      _phase_camera_choice cfg ccb s =
        ([emit_phase 5 "Camera choice" true, emit_phase 5 "Camera choice" false],
         s, none)) ∧
    (p.has_camera_choice = true →
      ∃ stock, p.get_stock_camera_package = some stock ∧
        _phase_camera_choice cfg ccb s =
          ([emit_phase 5 "Camera choice" true,
            .cameraChoice .CAMERA_CHOICE_REQUIRED "Camera choice required"
              stock.name stock.id "Fossify Camera" "",
            .cameraChoice .CAMERA_CHOICE_MADE
              ("Camera choice: " ++ resolveCameraChoice cfg ccb stock)
              stock.name stock.id "Fossify Camera"
              (resolveCameraChoice cfg ccb stock),
            emit_phase 5 "Camera choice" false],
           { s with choices := { s.choices with
               camera_choice := resolveCameraChoice cfg ccb stock } }, none) ∧
        resolveCameraChoice cfg ccb stock =
          (if cfg.non_interactive then "stock"
           else
             match ccb with
             | some f => f stock.name stock.id
             | none => "stock")) := by
  constructor
  · intro hno
    simp [_phase_camera_choice, WfState.getProfile, hp, hno]
  · intro hyes
    obtain ⟨stock, hstock⟩ := stock_camera_of_has_choice p hyes
    exact ⟨stock, hstock,
      by simp [_phase_camera_choice, WfState.getProfile, hp, hyes, hstock], rfl⟩

/-- Witness for C4: the no-camera profile skips with boundaries only; the
camera profile under non-interactive mode resolves to "stock". -/
theorem C4_camera_choice_phase_witness :
    profNoCamW.has_camera_choice = false ∧
    _phase_camera_choice cfgW none sNoCamW =
      ([emit_phase 5 "Camera choice" true, emit_phase 5 "Camera choice" false],
       sNoCamW, none) ∧
    profW.has_camera_choice = true ∧
    _phase_camera_choice cfgW none sLoadedW =
      ([emit_phase 5 "Camera choice" true,
        .cameraChoice .CAMERA_CHOICE_REQUIRED "Camera choice required"
          pkgCamW.name pkgCamW.id "Fossify Camera" "",
        .cameraChoice .CAMERA_CHOICE_MADE "Camera choice: stock"
          pkgCamW.name pkgCamW.id "Fossify Camera" "stock",
        emit_phase 5 "Camera choice" false],
       { sLoadedW with choices := { sLoadedW.choices with
           camera_choice := "stock" } }, none) := by
  refine ⟨by decide,
    (C4_camera_choice_phase cfgW none sNoCamW profNoCamW rfl).1 (by decide),
    by decide, ?_⟩
  obtain ⟨stock, hstock, heq, -⟩ :=
    (C4_camera_choice_phase cfgW none sLoadedW profW rfl).2 (by decide)
  have hst : stock = pkgCamW := by
    have h2 : profW.get_stock_camera_package = some pkgCamW := by decide
    rw [h2] at hstock
    injection hstock with hstock
    exact hstock.symm
  subst hst
  exact heq

theorem downloadAll_snd (env : WorkflowEnv) (apps : List AppDefinition) :
    (downloadAll env apps).2 =
      apps.filterMap (fun a => ((env.download a).2).map (fun pth => (a, pth))) := by
  induction apps with
  | nil => rfl
  | cons a rest ih =>
    simp only [downloadAll, List.filterMap_cons]
    cases h : (env.download a).2 with
    | none => simp [h, ih]
    | some pth => simp [h, ih]

theorem phase8_ok (env : WorkflowEnv) (cfg : WorkflowConfig) (s : WfState)
    (c : AppsCatalog) (apps : List AppDefinition) (hc : s.catalog = some c)
    (hd : s.device.isSome) (ha : appsToInstall c s.choices = .ok apps) :
    _phase_download_and_install env cfg s =
      ([emit_phase 8 "Installing apps" true] ++ (downloadAll env apps).1 ++
         (install_apps env.adb cfg.dry_run (downloadAll env apps).2).events ++
         (set_default_apps env.adb cfg.dry_run (buildDefaultApps apps)).events ++
         [emit_phase 8 "Installing apps" false],
       { s with result := { s.result with
           apps_installed :=
             (install_apps env.adb cfg.dry_run (downloadAll env apps).2).installed,
           apps_failed :=
             (install_apps env.adb cfg.dry_run (downloadAll env apps).2).failed } },
       none) := by
  obtain ⟨d, hdev⟩ := Option.isSome_iff_exists.mp hd
  simp [_phase_download_and_install, WfState.getCatalog, hc, ha,
    WfState.getAdb, hdev]

/-- C5: in the download-and-install phase, an app whose download returns no
path is excluded from the install input (and the phase does not abort);
`apps_installed` counts exactly the downloaded entries whose install
succeeded, `apps_failed` exactly the downloaded entries whose install
failed — download failures are counted nowhere. -/
theorem C5_download_failure_asymmetry (env : WorkflowEnv)
    (cfg : WorkflowConfig) (s : WfState) (c : AppsCatalog)
    (apps : List AppDefinition) (hc : s.catalog = some c)
    (hd : s.device.isSome) (ha : appsToInstall c s.choices = .ok apps) :
    (_phase_download_and_install env cfg s).2.2 = none ∧
    (downloadAll env apps).2 =
      apps.filterMap (fun a => ((env.download a).2).map (fun pth => (a, pth))) ∧
    (∀ a ∈ apps, (env.download a).2 = none →
      ∀ pth, (a, pth) ∉ (downloadAll env apps).2) ∧
    (_phase_download_and_install env cfg s).2.1.result.apps_installed =
      ((downloadAll env apps).2).countP (installSucceeds env.adb cfg.dry_run) ∧
    (_phase_download_and_install env cfg s).2.1.result.apps_failed =
      ((downloadAll env apps).2).countP
        (fun entry => !(installSucceeds env.adb cfg.dry_run entry)) ∧
    (_phase_download_and_install env cfg s).2.1.result.apps_installed +
        (_phase_download_and_install env cfg s).2.1.result.apps_failed =
      ((downloadAll env apps).2).length := by
  have h8 := phase8_ok env cfg s c apps hc hd ha
  have hcounts := install_apps_counts env.adb cfg.dry_run (downloadAll env apps).2
  refine ⟨by rw [h8], downloadAll_snd env apps, ?_, ?_, ?_, ?_⟩
  · intro a hmem hnone pth hin
    rw [downloadAll_snd env apps] at hin
    obtain ⟨b, hb, hfb⟩ := List.mem_filterMap.mp hin
    cases hfb' : (env.download b).2 with
    | none => rw [hfb'] at hfb; cases hfb
    | some q =>
      rw [hfb'] at hfb
      simp at hfb
      obtain ⟨hba, -⟩ := hfb
      rw [hba] at hfb'
      rw [hfb'] at hnone
      cases hnone
  · rw [h8]
    exact hcounts.1
  · rw [h8]
    exact hcounts.2
  · rw [h8]
    exact install_apps_sum env.adb cfg.dry_run (downloadAll env apps).2

/-- Witness for C5: the `weather` download fails, so the phase installs
only the launcher; nothing counts the failed download. -/
theorem C5_download_failure_asymmetry_witness :
    appsToInstall catW chW = .ok [appLauncherW, appWeatherW] ∧
    (_phase_download_and_install wenvDlFailW cfgW sChW).2.2 = none ∧
    (_phase_download_and_install wenvDlFailW cfgW sChW).2.1.result.apps_installed
      = 1 ∧
    (_phase_download_and_install wenvDlFailW cfgW sChW).2.1.result.apps_failed
      = 0 := by
  have hsort : catW.get_core_apps_sorted = [appLauncherW] := by
    simp [AppsCatalog.get_core_apps_sorted, catW]
  have hres : catW.resolve_extras ["weather"] [] = .ok [appWeatherW] := by
    simp [AppsCatalog.resolve_extras, resolveIn, alookup, catW]
  have ha : appsToInstall catW chW = .ok [appLauncherW, appWeatherW] := by
    simp [appsToInstall, hres, hsort, chW]
    intro h
    exact absurd h (by decide)
  have h := C5_download_failure_asymmetry wenvDlFailW cfgW sChW catW
    [appLauncherW, appWeatherW] rfl rfl ha
  refine ⟨ha, h.1, ?_, ?_⟩
  · rw [h.2.2.2.1]
    decide
  · rw [h.2.2.2.2.1]
    decide

theorem alookup_mem {α : Type} (l : List (String × α)) (k : String) (v : α)
    (h : alookup l k = some v) : (k, v) ∈ l := by
  unfold alookup at h
  cases hf : l.find? (fun p => p.1 == k) with
  | none => rw [hf] at h; cases h
  | some pr =>
    rw [hf] at h
    have h' : some pr.2 = some v := h
    injection h' with h'
    have hmem := List.mem_of_find?_eq_some hf
    have hpred := List.find?_some hf
    have h1 : pr.1 = k := by simpa using hpred
    obtain ⟨a, b⟩ := pr
    simp only at h' h1
    rw [← h1, ← h']
    exact hmem

theorem count_filterMap_alookup_eq (part : List (String × AppDefinition))
    (camDef : AppDefinition) (hcamid : camDef.id = "camera")
    (hwf : ∀ pr ∈ part, (Prod.snd pr).id = pr.1)
    (hcam : alookup part "camera" = some camDef) (ids : List String) :
    (ids.filterMap (alookup part)).count camDef = ids.count "camera" := by
  induction ids with
  | nil => rfl
  | cons x rest ih =>
    by_cases hx : x = "camera"
    · subst hx
      rw [List.filterMap_cons, hcam]
      simp [List.count_cons, ih]
    · rw [List.filterMap_cons]
      cases hl : alookup part x with
      | none => simp [List.count_cons, ih, hx]
      | some v =>
        have hv : v.id = x := hwf _ (alookup_mem part x v hl)
        have hne : camDef ≠ v := by
          intro heq
          rw [← heq, hcamid] at hv
          exact hx hv.symm
        simp [List.count_cons, ih, hne, hx]

theorem count_filterMap_alookup_zero (part : List (String × AppDefinition))
    (camDef : AppDefinition) (hcamid : camDef.id = "camera")
    (hwf : ∀ pr ∈ part, (Prod.snd pr).id = pr.1)
    (ids : List String) (hnc : "camera" ∉ ids) :
    (ids.filterMap (alookup part)).count camDef = 0 := by
  induction ids with
  | nil => rfl
  | cons x rest ih =>
    have hx : x ≠ "camera" := fun h => hnc (by simp [h])
    have hrest : "camera" ∉ rest := fun h => hnc (by simp [h])
    rw [List.filterMap_cons]
    cases hl : alookup part x with
    | none => exact ih hrest
    | some v =>
      have hv : v.id = x := hwf _ (alookup_mem part x v hl)
      have hne : camDef ≠ v := by
        intro heq
        rw [← heq, hcamid] at hv
        exact hx hv.symm
      simp [List.count_cons, ih hrest, hne]

theorem count_core_sorted_zero (c : AppsCatalog) (camDef : AppDefinition)
    (hcamid : camDef.id = "camera")
    (hwf : ∀ pr ∈ c.core_apps, (Prod.snd pr).id = pr.1)
    (hcore : "camera" ∉ c.core_apps.map Prod.fst) :
    c.get_core_apps_sorted.count camDef = 0 := by
  rw [AppsCatalog.get_core_apps_sorted,
    (List.mergeSort_perm (c.core_apps.map Prod.snd) _).count_eq,
    List.count_eq_zero]
  intro hmem
  obtain ⟨pr, hpr, hsnd⟩ := List.mem_map.mp hmem
  have hid : camDef.id = pr.1 := by rw [← hsnd]; exact hwf pr hpr
  rw [hcamid] at hid
  exact hcore (List.mem_map.mpr ⟨pr, hpr, hid.symm⟩)

theorem resolve_extras_ok_elim (c : AppsCatalog) (free nonfree : List String)
    (l : List AppDefinition) (h : c.resolve_extras free nonfree = .ok l) :
    l = free.filterMap (alookup c.extras_free) ++
        nonfree.filterMap (alookup c.extras_non_free) := by
  unfold AppsCatalog.resolve_extras at h
  cases h1 : resolveIn c.extras_free "extras_free" free with
  | error e => rw [h1] at h; cases h
  | ok fl =>
    rw [h1] at h
    cases h2 : resolveIn c.extras_non_free "extras_non_free" nonfree with
    | error e => rw [h2] at h; cases h
    | ok nl =>
      rw [h2] at h
      injection h with h
      rw [← h, (resolveIn_ok_elim _ _ _ _ h1).1, (resolveIn_ok_elim _ _ _ _ h2).1]

theorem downloadAll_length (env : WorkflowEnv) (apps : List AppDefinition)
    (h : ∀ a ∈ apps, ((env.download a).2).isSome) :
    ((downloadAll env apps).2).length = apps.length := by
  induction apps with
  | nil => rfl
  | cons a rest ih =>
    obtain ⟨p, hp⟩ := Option.isSome_iff_exists.mp (h a (by simp))
    simp only [downloadAll]
    simp [hp, ih (fun b hb => h b (by simp [hb]))]

/-- C10: the phase-8 installation list is assembled by plain concatenation
with no deduplication — when the camera choice is "fossify", the free
partition declares "camera", and "camera" is also among the selected free
extras (once), the camera definition occurs exactly twice in the list; a
run where all downloads succeed and all installs succeed counts every list
entry, the duplicate included, in `apps_installed`. -/
theorem C10_duplicate_camera (c : AppsCatalog) (ch : UserChoices)
    (camDef : AppDefinition) (extras : List AppDefinition)
    (hwfc : ∀ pr ∈ c.core_apps, (Prod.snd pr).id = pr.1)
    (hwff : ∀ pr ∈ c.extras_free, (Prod.snd pr).id = pr.1)
    (hwfn : ∀ pr ∈ c.extras_non_free, (Prod.snd pr).id = pr.1)
    (hcore : "camera" ∉ c.core_apps.map Prod.fst)
    (hchoice : ch.camera_choice = "fossify")
    (hcam : alookup c.extras_free "camera" = some camDef)
    (hcount : ch.selected_extras_free.count "camera" = 1)
    (hnf : "camera" ∉ ch.selected_extras_non_free)
    (hres : c.resolve_extras ch.selected_extras_free ch.selected_extras_non_free
      = .ok extras) :
    appsToInstall c ch = .ok (c.get_core_apps_sorted ++ [camDef] ++ extras) ∧
    (c.get_core_apps_sorted ++ [camDef] ++ extras).count camDef = 2 ∧
    ∀ (env : WorkflowEnv) (cfg : WorkflowConfig) (s : WfState),
      s.catalog = some c → s.choices = ch → s.device.isSome →
      (∀ a ∈ c.get_core_apps_sorted ++ [camDef] ++ extras,
        ((env.download a).2).isSome) →
      (∀ entry ∈ (downloadAll env (c.get_core_apps_sorted ++ [camDef] ++ extras)).2,
        installSucceeds env.adb cfg.dry_run entry = true) →
      (_phase_download_and_install env cfg s).2.1.result.apps_installed =
        (c.get_core_apps_sorted ++ [camDef] ++ extras).length := by
  have hcamid : camDef.id = "camera" := hwff _ (alookup_mem _ _ _ hcam)
  have happ : appsToInstall c ch =
      .ok (c.get_core_apps_sorted ++ [camDef] ++ extras) := by
    unfold appsToInstall
    rw [hres, hchoice, hcam]
    simp
  refine ⟨happ, ?_, ?_⟩
  · rw [resolve_extras_ok_elim c _ _ _ hres,
      List.count_append, List.count_append, List.count_append,
      count_core_sorted_zero c camDef hcamid hwfc hcore,
      count_filterMap_alookup_eq c.extras_free camDef hcamid hwff hcam
        ch.selected_extras_free,
      count_filterMap_alookup_zero c.extras_non_free camDef hcamid hwfn
        ch.selected_extras_non_free hnf,
      hcount]
    simp
  · intro env cfg s hc hch hd hdl hins
    have ha : appsToInstall c s.choices =
        .ok (c.get_core_apps_sorted ++ [camDef] ++ extras) := by
      rw [hch]; exact happ
    have h8 := phase8_ok env cfg s c _ hc hd ha
    rw [h8]
    have hcnt := (install_apps_counts env.adb cfg.dry_run
      (downloadAll env (c.get_core_apps_sorted ++ [camDef] ++ extras)).2).1
    rw [hcnt]
    rw [List.countP_eq_length.mpr (fun e he => hins e he)]
    exact downloadAll_length env _ hdl

/-- Witness for C10 at the concrete catalog: the install list is
launcher, camera, camera; the camera definition counts twice; a fully
successful run reports three installed apps. -/
theorem C10_duplicate_camera_witness :
    appsToInstall catW chCamW = .ok [appLauncherW, appCamW, appCamW] ∧
    ([appLauncherW, appCamW, appCamW].count appCamW = 2) ∧
    (_phase_download_and_install wenvW cfgW sCamW).2.1.result.apps_installed
      = 3 := by
  have hsort : catW.get_core_apps_sorted = [appLauncherW] := by
    simp [AppsCatalog.get_core_apps_sorted, catW]
  have hres : catW.resolve_extras chCamW.selected_extras_free
      chCamW.selected_extras_non_free = .ok [appCamW] := rfl
  have h := C10_duplicate_camera catW chCamW appCamW [appCamW]
    (by decide) (by decide) (by decide) (by decide) rfl (by decide) (by decide)
    (by decide) hres
  rw [hsort] at h
  refine ⟨h.1, h.2.1, ?_⟩
  have hrun := h.2.2 wenvW cfgW sCamW rfl rfl rfl
    (by decide) (by decide)
  rw [hrun]
  decide

end Clearphone
